import Mathlib

/-!
Verification of the static code analyzer (`code_analyzer.py`).

This file gives a shallow embedding of the analyzer's diagnostic engine:
the per-line lexical checks (S001–S009), the syntax-tree pass (S010–S012)
driven by the `ast.NodeVisitor` dispatch, the resilient-parse loop
(`built_ast` with its two repair routines), the per-file driver
(`run_checks`) and the directory driver (`check_path`).  Python strings are
modelled as `List Char`, Python's fallible operations (attribute access,
indexing) as `Except`, and the external parser (`ast.parse`) as an
abstract function supplied as a parameter.  Theorems at the end settle the
specification claims about the engine.
-/

/-- Python strings of the analyzer are modelled as lists of characters. -/
abbrev PyStr := List Char

/-- The apostrophe character (spelled numerically). -/
def quote1 : Char := Char.ofNat 39

/-- The double-quote character. -/
def quote2 : Char := '"'

/-- Lower-case ASCII letter test: the character class `[a-z]` of the
analyzer's regular expressions. -/
def isLowerAZ (c : Char) : Bool := 'a' ≤ c && c ≤ 'z'

/-- Upper-case ASCII letter test: the character class `[A-Z]`. -/
def isUpperAZ (c : Char) : Bool := 'A' ≤ c && c ≤ 'Z'

/-- Python `c in s` for a single character. -/
def pyContainsChar (c : Char) (s : PyStr) : Bool := s.contains c

/-- Python `s.count(c)` for a single character. -/
def pyCountChar (c : Char) (s : PyStr) : Nat := s.count c

/-- Index of the first occurrence of `c` in `s`, if any. -/
def firstIdx (c : Char) : PyStr → Option Nat
  | [] => none
  | x :: r => if x = c then some 0 else (firstIdx c r).map (· + 1)

/-- Python `s.index(c)` / `s.find(c)` restricted to the guarded case where
`c` occurs in `s`; returns the length when absent only via the caller's
guard (`refresh_hash_index` uses the guarded form). -/
def pyIndexOfNat (s : PyStr) (c : Char) : Nat :=
  match firstIdx c s with
  | some i => i
  | none => s.length

/-- Python `s.find(c, start)`: the index of the first occurrence of `c` at
or after `start`, or `-1` when there is none.  A negative `start` counts
from the end of the string, clamped at `0`, as in Python. -/
def pyFind (s : PyStr) (c : Char) (start : Int) : Int :=
  let st : Nat := if start < 0 then (s.length + start).toNat else start.toNat
  match firstIdx c (s.drop st) with
  | some i => ((st + i : Nat) : Int)
  | none => -1

/-- Python slicing `s[a:b]` with full negative-index semantics: a negative
bound counts from the end, bounds are clamped to the string. -/
def pySlice (s : PyStr) (a b : Int) : PyStr :=
  let n : Int := s.length
  let a' : Int := if a < 0 then max 0 (n + a) else min a n
  let b' : Int := if b < 0 then max 0 (n + b) else min b n
  if a' < b' then (s.drop a'.toNat).take (b' - a').toNat else []

/-- Python `s.lstrip()`: drop leading whitespace characters. -/
def pyLstrip (s : PyStr) : PyStr :=
  s.dropWhile fun c =>
    c = ' ' || c = '\t' || c = '\n' || c = '\r' || c = Char.ofNat 11 || c = Char.ofNat 12

/-- Python `sub in s` substring containment. -/
def pyContainsSub (sub : PyStr) : PyStr → Bool
  | [] => sub.isEmpty
  | c :: rest => sub.isPrefixOf (c :: rest) || pyContainsSub sub rest

/-- Rule codes of the analyzer's diagnostics, as printed (`S001` … `S012`). -/
inductive Rule where
  | S001 | S002 | S003 | S004 | S005 | S006
  | S007 | S008 | S009 | S010 | S011 | S012
deriving DecidableEq

/-- A diagnostic: the line number it is filed under and its rule code.
For line-pass rules the line is `self.line_number` at print time; for
tree-pass rules it is the first component of the tuple pushed onto
`warning_queue` (the spec's Finding data model: line number, message,
rule code — the message text is abstracted to its rule code). -/
structure Finding where
  line : Nat
  rule : Rule
deriving DecidableEq

/-- Rules produced by the syntax-tree pass and buffered in `warning_queue`
(S010–S012); the remaining rules are printed directly by the line pass. -/
def Rule.isTreeRule : Rule → Bool
  | .S010 | .S011 | .S012 => true
  | _ => false

/-! ## Line-pass checks (`CodeAnalyzer.check_*`, lines 26–117) -/

/-- Embedding of `refresh_hash_index`: index of the first `#`, or the
length of the line when there is none. -/
def refresh_hash_index (s : PyStr) : Nat :=
  if pyContainsChar '#' s then pyIndexOfNat s '#' else s.length

/-- Embedding of `check_line_length`: fires when `len(self.string) > 79`.
`self.string` is a line as yielded by file iteration, so it includes the
trailing newline when one is present. -/
def check_line_length (n : Nat) (s : PyStr) : List Finding :=
  if s.length > 79 then [⟨n, .S001⟩] else []

/-- Count of leading space characters (`while string.startswith(" ")`). -/
def leadingSpaces : PyStr → Nat
  | [] => 0
  | c :: rest => if c = ' ' then leadingSpaces rest + 1 else 0

/-- Embedding of `check_indentation`: fires when the count of leading
spaces is not a multiple of four. -/
def check_indentation (n : Nat) (s : PyStr) : List Finding :=
  if leadingSpaces s % 4 ≠ 0 then [⟨n, .S002⟩] else []

/-- Inner loop of `find_extra_semicolon` (`for _ in range(hash_amount)`).
Arguments: the line, the constant `hash_amount`, remaining iterations,
the current `semicolon_index` and the mutable `hash_index`.  Returns
`Sum.inl i` for the early `return semicolon_index` and `Sum.inr h` with
the final `hash_index` when the loop runs out. -/
def fesInner (s : PyStr) (hashAmount : Nat) : Nat → Int → Int → Sum Int Int
  | 0, _, hashIndex => .inr hashIndex
  | k + 1, semiIndex, hashIndex =>
    if semiIndex > hashIndex
        || pyContainsChar quote2 (pySlice s (semiIndex + 1) hashIndex)
        || pyContainsChar quote1 (pySlice s (semiIndex + 1) hashIndex) then
      let hashIndex' := if hashAmount > 1 then pyFind s '#' (hashIndex + 1) else hashIndex
      fesInner s hashAmount k semiIndex hashIndex'
    else
      .inl semiIndex

/-- Outer loop of `find_extra_semicolon` (`for _ in range(semicolon_amount)`),
advancing `semicolon_index` to the next semicolon each round. -/
def fesOuter (s : PyStr) (hashAmount : Nat) : Nat → Int → Int → Option Int
  | 0, _, _ => none
  | k + 1, semiIndex, hashIndex =>
    let semiIndex' := pyFind s ';' (semiIndex + 1)
    match fesInner s hashAmount hashAmount semiIndex' hashIndex with
    | .inl result => some result
    | .inr hashIndex' => fesOuter s hashAmount k semiIndex' hashIndex'

/-- Embedding of `find_extra_semicolon`: the heuristic locating an extra
semicolon.  Note the source computes `hash_amount` as `string.count(';')`
(not `'#'`) whenever the line contains at least one `#`. -/
def find_extra_semicolon (s : PyStr) : Option Int :=
  let hashIndex : Int := if pyContainsChar '#' s then pyFind s '#' 0 else (s.length : Int)
  let semicolonAmount := pyCountChar ';' s
  let hashAmount := if pyCountChar '#' s = 0 then 1 else pyCountChar ';' s
  fesOuter s hashAmount semicolonAmount (-1) hashIndex

/-- Embedding of `check_semicolon`: fires when the line contains a `;` and
`find_extra_semicolon` returns a truthy value (Python truthiness: `None`
and `0` are falsy, so an extra semicolon at index 0 is not reported). -/
def check_semicolon (n : Nat) (s : PyStr) : List Finding :=
  if pyContainsChar ';' s then
    match find_extra_semicolon s with
    | some i => if i ≠ 0 then [⟨n, .S003⟩] else []
    | none => []
  else []

/-- Embedding of `check_comment_spaces`: for a line containing `#` that is
not a whole-line comment, require two spaces right before the `#`
(`self.string[:self.hash_index].endswith("  ")`). -/
def check_comment_spaces (n : Nat) (s : PyStr) (hashIdx : Nat) : List Finding :=
  if pyContainsChar '#' s then
    if (pyLstrip s).take 1 = ['#'] then []
    else if [' ', ' '].isSuffixOf (s.take hashIdx) then []
    else [⟨n, .S004⟩]
  else []

/-- Embedding of `check_is_todo`: case-insensitive search for "todo" in the
comment text after the `#` marker. -/
def check_is_todo (n : Nat) (s : PyStr) (hashIdx : Nat) : List Finding :=
  if pyContainsChar '#' s then
    if pyContainsSub ['t', 'o', 'd', 'o'] ((s.drop (hashIdx + 1)).map Char.toLower) then
      [⟨n, .S005⟩]
    else []
  else []

/-- Embedding of `check_blank_lines`: maintains the bounded trailing window
`last_3_lines_queue` and the consecutive-blank counter; on a non-blank line
it fires exactly when the counter equals 3 and then resets the counter.
Returns (new counter, new window, findings). -/
def check_blank_lines (n : Nat) (counter : Nat) (window : List PyStr) (s : PyStr) :
    Nat × List PyStr × List Finding :=
  let w1 := window ++ [s]
  let w2 := if w1.length > 4 then w1.tail else w1
  if s.take 1 = ['\n'] ∨ s.take 1 = ['\r'] then
    (counter + 1, w2, [])
  else
    (0, w2, if counter = 3 then [⟨n, .S006⟩] else [])

/-! ## Name-style matchers and definition-header checks -/

/-- Match-existence semantics of `is_snake_case`'s regular expression
`_{,2}?[a-z]+[0-9]?_?[a-z]?[0-9]?` anchored at the start: everything after
`[a-z]+` is optional, so a (prefix) match exists exactly when after at most
two leading underscores there is at least one lower-case letter.  The
second argument is the number of underscores still allowed. -/
def snakeAux : Nat → PyStr → Bool
  | _, [] => false
  | k, c :: rest =>
    if isLowerAZ c then true
    else if c = '_' && k > 0 then snakeAux (k - 1) rest
    else false

/-- Embedding of `is_snake_case` (truthiness of `re.match`). -/
def is_snake_case (s : PyStr) : Bool := snakeAux 2 s

/-- Match-existence semantics of `is_camel_case`'s regular expression
`[A-Z][a-z]+[A-Z]?[a-z]+`: one upper-case letter, then either at least two
lower-case letters, or at least one lower-case letter followed by an
upper-case letter and a further lower-case letter. -/
def is_camel_case (s : PyStr) : Bool :=
  match s with
  | [] => false
  | c :: rest =>
    isUpperAZ c &&
      (let run := rest.takeWhile isLowerAZ
       let after := rest.dropWhile isLowerAZ
       run.length ≥ 2 ||
         (run.length ≥ 1 &&
           match after with
           | u :: l :: _ => isUpperAZ u && isLowerAZ l
           | _ => false))

/-- Result shape of `_get_groups`: the named groups of the definition-header
regular expression (`construction_name`, `space`, `entity_name`,
`arguments`).  The regular-expression engine itself is external (`re`), so
the header matcher is passed to the engine as an abstract function
`PyStr → Option DefHeader` (none models a failed match). -/
structure DefHeader where
  construction_name : PyStr
  space : PyStr
  entity_name : PyStr
  arguments : PyStr

/-- Abstract header matcher: the engine's `self.match_object = self._get_groups()`. -/
abbrev GetGroups := PyStr → Option DefHeader

/-- Embedding of `check_definition_spaces`: fires when the whitespace run
captured after `def`/`class` is longer than one character. -/
def check_definition_spaces (n : Nat) (m : DefHeader) : List Finding :=
  if m.space.length > 1 then [⟨n, .S007⟩] else []

/-- Embedding of `check_class_name`: for a `class` header, check the
`entity_name` and then the `arguments` group against CamelCase; an empty
group returns early, and each failing group prints its own S008. -/
def check_class_name (n : Nat) (m : DefHeader) : List Finding :=
  if m.construction_name ≠ ['c', 'l', 'a', 's', 's'] then []
  else if m.entity_name.length = 0 then []
  else
    let f1 := if ¬is_camel_case m.entity_name then [(⟨n, .S008⟩ : Finding)] else []
    if m.arguments.length = 0 then f1
    else f1 ++ (if ¬is_camel_case m.arguments then [(⟨n, .S008⟩ : Finding)] else [])

/-- Embedding of `check_function_name`: for a `def` header, the entity name
must be snake_case. -/
def check_function_name (n : Nat) (m : DefHeader) : List Finding :=
  if m.construction_name ≠ ['d', 'e', 'f'] then []
  else if ¬is_snake_case m.entity_name then [⟨n, .S009⟩] else []

/-! ## Syntax-tree model (the `ast` node shapes the analyzer consumes) -/

/-- Embedding of the expression nodes the analyzer inspects.  `name` is
`ast.Name` (field `id`), `tup` is `ast.Tuple` (field `elts`), and
`listLit`/`dictLit`/`setLit` are the literal `ast.List`/`ast.Dict`/`ast.Set`
constructions; every other expression kind is collapsed into `otherE`,
which none of the checks deconstructs.  Each node carries its `lineno`. -/
inductive PyExpr where
  | name (id : PyStr) (lineno : Nat)
  | tup (elts : List PyExpr) (lineno : Nat)
  | listLit (lineno : Nat)
  | dictLit (lineno : Nat)
  | setLit (lineno : Nat)
  | otherE (lineno : Nat)

/-- The `lineno` attribute of an expression node. -/
def PyExpr.lineno : PyExpr → Nat
  | .name _ l | .tup _ l | .listLit l | .dictLit l | .setLit l | .otherE l => l

/-- Embedding of `ast.arg`: a formal parameter (fields `arg`, `lineno`). -/
structure PyArg where
  arg : PyStr
  lineno : Nat
deriving DecidableEq

/-- Embedding of `ast.arguments` with the fields the analyzer reads
(`kw_defaults` holds `None` for keyword-only parameters without a
default, hence `Option`). -/
structure PyArguments where
  posonlyargs : List PyArg
  args : List PyArg
  vararg : Option PyArg
  kwonlyargs : List PyArg
  kw_defaults : List (Option PyExpr)
  kwarg : Option PyArg
  defaults : List PyExpr

/-! Embedding of the statement nodes relevant to the tree pass.
`functionDef` is `ast.FunctionDef`, `classDef` is `ast.ClassDef`,
`assign` is `ast.Assign` (field `targets`; its `value` is never read by
the analyzer and is omitted), `annAssign` is `ast.AnnAssign` (single
field `target` — it has no `targets` attribute), and `simple` stands for
any statement without nested statements (e.g. `return`, expression
statements), which the visitor traverses without effect.  Statement
sequences (module and block bodies) are the mutually defined
`PyStmtList`, a plain list type kept mutual with `PyStmt` so that all
recursions over the tree are structural.
-/

mutual
/-- Statement nodes of the analyzer's syntax-tree model (see above). -/
inductive PyStmt where
  | functionDef (name : PyStr) (args : PyArguments) (body : PyStmtList) (lineno : Nat)
  | classDef (name : PyStr) (body : PyStmtList) (lineno : Nat)
  | assign (targets : List PyExpr) (lineno : Nat)
  | annAssign (target : PyExpr) (lineno : Nat)
  | simple (lineno : Nat)

inductive PyStmtList where
  | nil
  | cons (s : PyStmt) (rest : PyStmtList)
end

/-- Errors with which the Python code can abort: `TypeError`
(`None + 1` in `fix_syntax_error`), `IndexError` (list index out of
range), `AttributeError` (missing node attribute), an uncaught parse
failure, and exhaustion of the retry loop's fuel (the source's
`while True` loop does not terminate in that case). -/
inductive PyError where
  | typeError
  | indexError
  | attributeError
  | uncaughtParseError
  | nonTermination
deriving DecidableEq

/-! ## Tree-pass checks (S010–S012) -/

/-- The `ast.arg` nodes yielded by `ast.walk(node.args)` in the order the
walk produces them: all parameter nodes are direct children of the
`arguments` node and appear in field order (default expressions are not
`ast.arg` instances and are skipped by the `isinstance` filter). -/
def walkArgs (a : PyArguments) : List PyArg :=
  a.posonlyargs ++ a.args ++ a.vararg.toList ++ a.kwonlyargs ++ a.kwarg.toList

/-- Loop body of `check_argument_name`: the first parameter whose name
fails `is_snake_case` yields one S010 finding (keyed by the parameter's
`lineno`) and the loop breaks. -/
def firstBadArg : List PyArg → List Finding
  | [] => []
  | x :: rest =>
    if ¬is_snake_case x.arg then [⟨x.lineno, .S010⟩] else firstBadArg rest

/-- Embedding of `check_argument_name`. -/
def check_argument_name (a : PyArguments) : List Finding :=
  firstBadArg (walkArgs a)

/-- The `.id` attribute access on a tuple element (`tuple_item.id`):
raises `AttributeError` unless the element is an `ast.Name`. -/
def getNameId : PyExpr → Except PyError PyStr
  | .name id _ => .ok id
  | _ => .error .attributeError

/-- Inner loop of `check_local_variable_name` over a tuple target's
elements: the first element failing `is_snake_case` records one S011
finding — keyed by the *tuple's* `lineno` (`item.lineno` in the source) —
and breaks out of the element loop only. -/
def checkTupleElts (tupLine : Nat) : List PyExpr → Except PyError (List Finding)
  | [] => .ok []
  | e :: rest =>
    match getNameId e with
    | .error err => .error err
    | .ok id =>
      if ¬is_snake_case id then .ok [⟨tupLine, .S011⟩]
      else checkTupleElts tupLine rest

/-- Loop of `check_local_variable_name` over `list_item.targets`: a name
target failing `is_snake_case` records one S011 finding and breaks out of
the whole targets loop; a tuple target is scanned by `checkTupleElts` and
afterwards the targets loop continues; any other target kind is skipped. -/
def checkTargets : List PyExpr → Except PyError (List Finding)
  | [] => .ok []
  | t :: rest =>
    match t with
    | .name id l =>
      if ¬is_snake_case id then .ok [⟨l, .S011⟩] else checkTargets rest
    | .tup elts l =>
      match checkTupleElts l elts with
      | .error err => .error err
      | .ok fs =>
        match checkTargets rest with
        | .error err => .error err
        | .ok more => .ok (fs ++ more)
    | _ => checkTargets rest

/-- Embedding of `check_local_variable_name` over the routine body's direct
statements.  For an `ast.Assign` the `targets` list is scanned; for an
`ast.AnnAssign` the source evaluates `list_item.targets`, an attribute
`ast.AnnAssign` does not have, so the check raises `AttributeError`. -/
def check_local_variable_name : PyStmtList → Except PyError (List Finding)
  | .nil => .ok []
  | .cons s rest =>
    match s with
    | .assign targets _ =>
      match checkTargets targets with
      | .error err => .error err
      | .ok fs =>
        match check_local_variable_name rest with
        | .error err => .error err
        | .ok more => .ok (fs ++ more)
    | .annAssign _ _ => .error .attributeError
    | _ => check_local_variable_name rest

/-- Test whether a default expression is a literal list, dict or set
(the `isinstance` loop over `(ast.List, ast.Dict, ast.Set)`). -/
def isMutableExpr : PyExpr → Bool
  | .listLit _ | .dictLit _ | .setLit _ => true
  | _ => false

/-- Scan of the combined defaults deque: the first literal list/dict/set
records one S012 finding (keyed by the default expression's `lineno`) and
the whole check returns; `None` entries in `kw_defaults` match no
`isinstance` test and are passed over. -/
def scanDefaults : List (Option PyExpr) → List Finding
  | [] => []
  | none :: rest => scanDefaults rest
  | some e :: rest =>
    if isMutableExpr e then [⟨e.lineno, .S012⟩] else scanDefaults rest

/-- Embedding of `is_default_argument_mutable`: the deque is filled from
`kw_defaults` first and `defaults` second, each only when non-empty
(Python truthiness of a list), then scanned once. -/
def is_default_argument_mutable (a : PyArguments) : List Finding :=
  let pool :=
    (if a.kw_defaults.isEmpty then [] else a.kw_defaults) ++
    (if a.defaults.isEmpty then [] else a.defaults.map some)
  scanDefaults pool

/-! ## The visitor (`visit_FunctionDef` / `generic_visit`) -/

/-- Stable insertion of a finding into a list sorted by `line`.
`pySorted (x :: xs)` inserts `x` into the already sorted *later* elements
`xs`, so stability demands that `x` land *before* every element with an
equal key: `x` is placed after the elements with a strictly smaller key
and before the first element with a key greater than or equal to its own,
which is exactly the placement Python's stable `sorted` gives. -/
def insertByLine (x : Finding) : List Finding → List Finding
  | [] => [x]
  | y :: ys => if y.line < x.line then y :: insertByLine x ys else x :: y :: ys

/-- Stable sort by line number, modelling Python's
`sorted(self.warning_queue, key=lambda x: x[0])`. -/
def pySorted : List Finding → List Finding
  | [] => []
  | x :: xs => insertByLine x (pySorted xs)

/-- Embedding of `visit_FunctionDef`: run the three S010–S012 checks for
one routine-definition node, appending to the shared `warning_queue`, then
replace the queue with its stable sort by line number.  The node's body is
*not* visited further (the method never calls `generic_visit`). -/
def visit_FunctionDef (q : List Finding) (args : PyArguments) (body : PyStmtList) :
    Except PyError (List Finding) :=
  let q1 := q ++ check_argument_name args
  match check_local_variable_name body with
  | .error err => .error err
  | .ok fs => .ok (pySorted (q1 ++ fs ++ is_default_argument_mutable args))

/-! Embedding of the `ast.NodeVisitor` traversal as run by
`self.generic_visit(tree)`.  `visit` is the dispatcher: on a
`FunctionDef` node it calls `visit_FunctionDef` — which does *not*
descend into the node's body — and on every other node it falls back to
`generic_visit`, which visits the node's children.  Expression children
contain no routine definitions in this model, so visiting them has no
effect.  Both functions return the updated `warning_queue` together with
the (name, line) list of the routine-definition nodes on which
`visit_FunctionDef` actually ran, in visit order.
-/

mutual
/-- Dispatcher `NodeVisitor.visit` (see above). -/
def visit (q : List Finding) : PyStmt → Except PyError (List Finding × List (PyStr × Nat))
  | .functionDef name args body lineno =>
    match visit_FunctionDef q args body with
    | .error err => .error err
    | .ok q1 => .ok (q1, [(name, lineno)])
  | .classDef _ body _ => generic_visit q body
  | .assign _ _ => .ok (q, [])
  | .annAssign _ _ => .ok (q, [])
  | .simple _ => .ok (q, [])

/-- Child-visiting loop `NodeVisitor.generic_visit` (see above). -/
def generic_visit (q : List Finding) :
    PyStmtList → Except PyError (List Finding × List (PyStr × Nat))
  | .nil => .ok (q, [])
  | .cons s rest =>
    match visit q s with
    | .error err => .error err
    | .ok r1 =>
      match generic_visit r1.1 rest with
      | .error err => .error err
      | .ok r2 => .ok (r2.1, r1.2 ++ r2.2)
end

/-! Modelled from the spec: the document-order list of *all*
routine-definition nodes of a statement tree, including routines nested
inside other routines — the set of nodes claim C3 says the tree pass
visits.
-/

mutual
/-- Modelled from the spec: all routine definitions below one statement. -/
def all_routine_defs_stmt : PyStmt → List (PyStr × Nat)
  | .functionDef name _ body lineno => (name, lineno) :: all_routine_defs body
  | .classDef _ body _ => all_routine_defs body
  | .assign _ _ => []
  | .annAssign _ _ => []
  | .simple _ => []

/-- Modelled from the spec: all routine definitions of a statement list. -/
def all_routine_defs : PyStmtList → List (PyStr × Nat)
  | .nil => []
  | .cons s rest => all_routine_defs_stmt s ++ all_routine_defs rest
end

/-! The routine-definition nodes *not* nested inside another routine
definition, in document order: the traversal recurses through every other
statement kind (e.g. class bodies) but stops at a routine definition.
-/

mutual
/-- Unnested routine definitions below one statement (see above). -/
def unnested_routine_defs_stmt : PyStmt → List (PyStr × Nat)
  | .functionDef name _ _ lineno => [(name, lineno)]
  | .classDef _ body _ => unnested_routine_defs body
  | .assign _ _ => []
  | .annAssign _ _ => []
  | .simple _ => []

/-- Unnested routine definitions of a statement list (see above). -/
def unnested_routine_defs : PyStmtList → List (PyStr × Nat)
  | .nil => []
  | .cons s rest => unnested_routine_defs_stmt s ++ unnested_routine_defs rest
end

/-! ## Engine state and the per-file line pass (`run_checks`) -/

/-- The per-file mutable fields of `CodeAnalyzer` (`__init__`):
`line_number`, `blank_lines_counter`, `last_3_lines_queue` and
`warning_queue`.  (`path`, `string`, `match_object`, `hash_index`,
`file_list_of_lines` and `file_text` are re-assigned before every use and
carry no state across lines or files that affects diagnostics, except
`file_text`, which is threaded explicitly through `built_ast`.) -/
structure AnalyzerState where
  line_number : Nat
  blank_lines_counter : Nat
  last_3_lines_queue : List PyStr
  warning_queue : List Finding
deriving DecidableEq

/-- The state produced by `__init__`: line number 1, zero blank-line
counter, empty window, empty warning queue. -/
def initState : AnalyzerState := ⟨1, 0, [], []⟩

/-- Embedding of `check_warning_queue`: pop and print queue entries while
the head's stored line number equals the current line number.  Returns
(printed findings, remaining queue). -/
def check_warning_queue (n : Nat) : List Finding → List Finding × List Finding
  | [] => ([], [])
  | f :: rest =>
    if f.line = n then
      let r := check_warning_queue n rest
      (f :: r.1, r.2)
    else ([], f :: rest)

/-- The header-dependent checks: run only when `self.match_object` is not
`None`, in source order S007, S008, S009. -/
def headerChecks (g : GetGroups) (n : Nat) (s : PyStr) : List Finding :=
  match g s with
  | none => []
  | some m => check_definition_spaces n m ++ check_class_name n m ++ check_function_name n m

/-- The findings printed directly for one line, in source order: S001–S005
with the freshly computed hash index, S006 from the blank-line tracker,
then — when the header matcher succeeded — S007–S009. -/
def lineFindings (g : GetGroups) (n : Nat) (counter : Nat) (window : List PyStr)
    (s : PyStr) : List Finding :=
  check_line_length n s ++ check_indentation n s ++ check_semicolon n s ++
    check_comment_spaces n s (refresh_hash_index s) ++
    check_is_todo n s (refresh_hash_index s) ++
    (check_blank_lines n counter window s).2.2 ++ headerChecks g n s

/-- One iteration of the `for line in file2` loop of `run_checks`: compute
the match object and the hash index, run the checks in source order
(S001–S006, then the header checks, then drain the warning queue), and
advance the line number. -/
def processLine (g : GetGroups) (st : AnalyzerState) (s : PyStr) :
    AnalyzerState × List Finding :=
  let n := st.line_number
  let bl := check_blank_lines n st.blank_lines_counter st.last_3_lines_queue s
  let dr := check_warning_queue n st.warning_queue
  (⟨n + 1, bl.1, bl.2.1, dr.2⟩,
    lineFindings g n st.blank_lines_counter st.last_3_lines_queue s ++ dr.1)

/-- The whole line-by-line loop of `run_checks` over the file's physical
lines, threading the engine state and concatenating the printed findings
in order. -/
def runLines (g : GetGroups) (st : AnalyzerState) : List PyStr → AnalyzerState × List Finding
  | [] => (st, [])
  | s :: rest =>
    let p := processLine g st s
    let r := runLines g p.1 rest
    (r.1, p.2 ++ r.2)

/-! ## The resilient parser (`built_ast` and the two repairs) -/

/-- Python `text.splitlines(keepends=True)` for LF-terminated text (the
analyzer reads files in text mode, where every terminator is `\n`). -/
def pySplitLinesKeepends : PyStr → List PyStr
  | [] => []
  | c :: rest =>
    if c = '\n' then ['\n'] :: pySplitLinesKeepends rest
    else
      match pySplitLinesKeepends rest with
      | [] => [[c]]
      | l :: ls => (c :: l) :: ls

/-- Python list indexing `l[i]` for a non-negative index: `IndexError`
when out of range. -/
def pyGet (l : List PyStr) (i : Nat) : Except PyError PyStr :=
  match l.get? i with
  | some x => .ok x
  | none => .error .indexError

/-- Outcome of the external `ast.parse`: a tree (a module body), an
`IndentationError` or other `SyntaxError` carrying the failing line
number, or any other exception. -/
inductive ParseResult where
  | success (body : PyStmtList)
  | indentationError (lineno : Nat)
  | syntaxError (lineno : Nat)
  | otherError

/-- Embedding of `fix_indentation_error`: split the current text into
lines (`create_working_source`), strip all leading whitespace from the
line named by the error, and re-join. -/
def fix_indentation_error (lineno : Nat) (text : PyStr) : Except PyError PyStr :=
  let lines := pySplitLinesKeepends text
  let loc := lineno - 1
  match pyGet lines loc with
  | .error err => .error err
  | .ok line => .ok (lines.set loc (pyLstrip line)).flatten

/-- Embedding of `fix_syntax_error`: locate the extra semicolon on the
line named by the error and delete that character.  When
`find_extra_semicolon` returns `None`, the source evaluates
`line[:None] + line[None + 1:]`, and `None + 1` raises `TypeError`. -/
def fix_syntax_error (lineno : Nat) (text : PyStr) : Except PyError PyStr :=
  let lines := pySplitLinesKeepends text
  let loc := lineno - 1
  match pyGet lines loc with
  | .error err => .error err
  | .ok line =>
    match find_extra_semicolon line with
    | none => .error .typeError
    | some i =>
      .ok (lines.set loc (pySlice line 0 i ++ pySlice line (i + 1) line.length)).flatten

/-- Embedding of `built_ast`: the `while True` retry loop around
`ast.parse`, repairing `IndentationError`s and other `SyntaxError`s in the
working text.  `parse` is the external parser; `fuel` bounds the number of
attempts (the source loops forever when no attempt ever succeeds or
raises).  Returns the tree together with the repaired working text
(`self.file_text`). -/
def built_ast (parse : PyStr → ParseResult) : Nat → PyStr →
    Except PyError (PyStmtList × PyStr)
  | 0, _ => .error .nonTermination
  | fuel + 1, text =>
    match parse text with
    | .success body => .ok (body, text)
    | .indentationError l =>
      match fix_indentation_error l text with
      | .error err => .error err
      | .ok text2 => built_ast parse fuel text2
    | .syntaxError l =>
      match fix_syntax_error l text with
      | .error err => .error err
      | .ok text2 => built_ast parse fuel text2
    | .otherError => .error .uncaughtParseError

/-! ## The per-file driver (`run_checks`) and directory driver (`check_path`) -/

/-- Embedding of `run_checks`: build the tree with `built_ast` (first read
of the file, then zero or more in-place repairs of the working text),
populate the warning queue by `self.generic_visit(tree)`, then run the
line pass over the file as re-opened from disk — i.e. over the *original*
text, not the repaired working text, which is dropped unused. -/
def run_checks (parse : PyStr → ParseResult) (g : GetGroups) (fuel : Nat)
    (st : AnalyzerState) (text : PyStr) :
    Except PyError (AnalyzerState × List Finding) :=
  match built_ast parse fuel text with
  | .error err => .error err
  | .ok tr =>
    match generic_visit st.warning_queue tr.1 with
    | .error err => .error err
    | .ok qv => .ok (runLines g { st with warning_queue := qv.1 } (pySplitLinesKeepends text))

/-- Modelled from the spec: the variant of `run_checks` the specification
describes, in which the line pass reads "the text as it stood after
repair" — identical to `run_checks` except that the line pass runs over
the repaired working text returned by `built_ast`. -/
def run_checks_repaired_read (parse : PyStr → ParseResult) (g : GetGroups) (fuel : Nat)
    (st : AnalyzerState) (text : PyStr) :
    Except PyError (AnalyzerState × List Finding) :=
  match built_ast parse fuel text with
  | .error err => .error err
  | .ok tr =>
    match generic_visit st.warning_queue tr.1 with
    | .error err => .error err
    | .ok qv => .ok (runLines g { st with warning_queue := qv.1 } (pySplitLinesKeepends tr.2))

/-- Embedding of the directory branch of `check_path`: process the files
in order; before each file only `self.line_number` is reset to 1 — the
blank-line counter and the warning queue are whatever the previous file
left behind.  Each file is given by its text and the parser covering it. -/
def check_path (parse : PyStr → ParseResult) (g : GetGroups) (fuel : Nat) :
    List PyStr → AnalyzerState → Except PyError (AnalyzerState × List Finding)
  | [], st => .ok (st, [])
  | text :: rest, st =>
    match run_checks parse g fuel { st with line_number := 1 } text with
    | .error err => .error err
    | .ok r1 =>
      match check_path parse g fuel rest r1.1 with
      | .error err => .error err
      | .ok r2 => .ok (r2.1, r1.2 ++ r2.2)

/-- Projection of a per-file result to the emitted findings. -/
def findingsOf (r : Except PyError (AnalyzerState × List Finding)) : List Finding :=
  match r with
  | .ok p => p.2
  | .error _ => []

/-! ## Auxiliary definitions for the claim statements -/

/-- The output order claimed for a file's diagnostics: strictly later line
number, or equal line numbers with the constraint that a tree-pass finding
is never followed by a line-pass finding for the same line. -/
def diagOrder (a b : Finding) : Prop :=
  a.line < b.line ∨ (a.line = b.line ∧ (a.rule.isTreeRule = true → b.rule.isTreeRule = true))

/-- Modelled from the spec: the character length of a physical line
excluding its line terminator (a trailing LF, CR or CRLF). -/
def line_content_length (s : PyStr) : Nat :=
  if s.getLast? = some '\n' then
    if s.dropLast.getLast? = some '\r' then s.length - 2 else s.length - 1
  else if s.getLast? = some '\r' then s.length - 1 else s.length

/-- Iteration of the blank-line tracker alone over a list of lines,
returning the final counter and window (the findings of the intermediate
lines are not needed to state the blank-run claim). -/
def blankFold (n c : Nat) (w : List PyStr) : List PyStr → Nat × List PyStr
  | [] => (c, w)
  | s :: rest =>
    let b := check_blank_lines n c w s
    blankFold (n + 1) b.1 b.2.1 rest

/-! ## Concrete test inputs -/

/-- A header matcher that matches no line (none of the concrete test files
contains a `def`/`class` header line). -/
def g0 : GetGroups := fun _ => none

/-- An `arguments` node with no parameters and no defaults. -/
def emptyArgs : PyArguments := ⟨[], [], none, [], [], none, []⟩

/-- The file `x = ;1\n`: the stray semicolon sits inside the statement,
so the text is invalid Python and `ast.parse` raises a `SyntaxError` on
line 1 (a trailing semicolon, by contrast, would parse). -/
def c2_text : PyStr := "x = ;1\n".toList

/-- The tree of the repaired text `x = 1\n`. -/
def c2_tree : PyStmtList := .cons (.assign [.name ['x'] 1] 1) .nil

/-- Parser behaviour for `c2_text`, as CPython exhibits it: the original
invalid text raises a `SyntaxError` on line 1; the repaired text
`x = 1\n` parses to `c2_tree`. -/
def c2_parse : PyStr → ParseResult :=
  fun t => if t = c2_text then .syntaxError 1 else .success c2_tree

/-- First directory file: `x = 1` followed by two blank lines. -/
def c1_text1 : PyStr := "x = 1\n\n\n".toList

/-- Second directory file: one blank line, then `x = 1`. -/
def c1_text2 : PyStr := "\nx = 1\n".toList

/-- Parser behaviour for the two directory files (both parse cleanly). -/
def c1_parse : PyStr → ParseResult :=
  fun t =>
    if t = c1_text1 then .success (.cons (.assign [.name ['x'] 1] 1) .nil)
    else .success (.cons (.assign [.name ['x'] 2] 2) .nil)

/-- A parser that reports a generic `SyntaxError` on line 1 for any text. -/
def c9_parse : PyStr → ParseResult := fun _ => .syntaxError 1

/-- A file whose line 1 contains no semicolon at all. -/
def c9_text : PyStr := "foo bar\n".toList

/-- Arguments node of the nested routine `Inner`: one parameter named `X`
(not snake_case). -/
def c3_inner_args : PyArguments := ⟨[], [⟨['X'], 2⟩], none, [], [], none, []⟩

/-- A module with a routine `outer` whose body defines a nested routine
`Inner` carrying the badly named parameter `X`. -/
def c3_module : PyStmtList :=
  .cons
    (.functionDef "outer".toList emptyArgs
      (.cons (.functionDef "Inner".toList c3_inner_args .nil 2) .nil) 1)
    .nil

/-- Routine body consisting of the single annotated assignment
`x: int = 1` on line 2. -/
def c4_body : PyStmtList := .cons (.annAssign (.name ['x'] 2) 2) .nil

/-- A module defining `def f():` with `c4_body` as its body. -/
def c4_module : PyStmtList := .cons (.functionDef ['f'] emptyArgs c4_body 1) .nil

/-- The file `def f():\n    x: int = 1\n`. -/
def c4_text : PyStr := "def f():\n    x: int = 1\n".toList

/-- Parser behaviour for `c4_text` (parses cleanly to `c4_module`). -/
def c4_parse : PyStr → ParseResult := fun _ => .success c4_module

/-- The 79-character line `aaa…a` followed by its terminator. -/
def c5_line : PyStr := List.replicate 79 'a' ++ ['\n']

/-! ## Helper lemmas -/

theorem mem_insertByLine {f x : Finding} {l : List Finding} :
    f ∈ insertByLine x l ↔ f = x ∨ f ∈ l := by
  induction l with
  | nil => simp [insertByLine]
  | cons y ys ih =>
    by_cases h : y.line < x.line
    · simp [insertByLine, h, ih]; tauto
    · simp [insertByLine, h]

theorem mem_pySorted {f : Finding} {l : List Finding} : f ∈ pySorted l ↔ f ∈ l := by
  induction l with
  | nil => simp [pySorted]
  | cons x xs ih => simp [pySorted, mem_insertByLine, ih]

theorem firstBadArg_rule {f : Finding} :
    ∀ {l : List PyArg}, f ∈ firstBadArg l → f.rule = .S010 := by
  intro l
  induction l with
  | nil => simp [firstBadArg]
  | cons x rest ih =>
    by_cases h : is_snake_case x.arg
    · simpa [firstBadArg, h] using ih
    · intro hf
      simp [firstBadArg, h] at hf
      subst hf; rfl

theorem check_argument_name_rule {f : Finding} {a : PyArguments}
    (h : f ∈ check_argument_name a) : f.rule = .S010 :=
  firstBadArg_rule h

theorem checkTupleElts_rule {n : Nat} {f : Finding} :
    ∀ {elts : List PyExpr} {fs : List Finding},
      checkTupleElts n elts = .ok fs → f ∈ fs → f.rule = .S011 := by
  intro elts
  induction elts with
  | nil =>
    intro fs h hf
    simp [checkTupleElts] at h
    subst h; simp at hf
  | cons e rest ih =>
    intro fs h hf
    cases e with
    | name id l =>
      by_cases hs : is_snake_case id
      · exact ih (by simpa [checkTupleElts, getNameId, hs] using h) hf
      · simp [checkTupleElts, getNameId, hs] at h
        subst h; simp at hf; subst hf; rfl
    | tup elts2 l2 => simp [checkTupleElts, getNameId] at h
    | listLit l2 => simp [checkTupleElts, getNameId] at h
    | dictLit l2 => simp [checkTupleElts, getNameId] at h
    | setLit l2 => simp [checkTupleElts, getNameId] at h
    | otherE l2 => simp [checkTupleElts, getNameId] at h

theorem checkTargets_rule {f : Finding} :
    ∀ {targets : List PyExpr} {fs : List Finding},
      checkTargets targets = .ok fs → f ∈ fs → f.rule = .S011 := by
  intro targets
  induction targets with
  | nil =>
    intro fs h hf
    simp [checkTargets] at h
    subst h; simp at hf
  | cons t rest ih =>
    intro fs h hf
    cases t with
    | name id l =>
      by_cases hs : is_snake_case id
      · exact ih (by simpa [checkTargets, hs] using h) hf
      · simp [checkTargets, hs] at h
        subst h; simp at hf; subst hf; rfl
    | tup elts l =>
      rw [checkTargets] at h
      cases h1 : checkTupleElts l elts with
      | error e => rw [h1] at h; cases h
      | ok fs1 =>
        rw [h1] at h
        cases h2 : checkTargets rest with
        | error e => rw [h2] at h; cases h
        | ok fs2 =>
          rw [h2] at h
          cases h
          rcases List.mem_append.1 hf with hf | hf
          · exact checkTupleElts_rule h1 hf
          · exact ih h2 hf
    | listLit l2 => exact ih (by simpa [checkTargets] using h) hf
    | dictLit l2 => exact ih (by simpa [checkTargets] using h) hf
    | setLit l2 => exact ih (by simpa [checkTargets] using h) hf
    | otherE l2 => exact ih (by simpa [checkTargets] using h) hf

theorem check_local_variable_name_rule {f : Finding} :
    ∀ (l : PyStmtList) (fs : List Finding),
      check_local_variable_name l = .ok fs → f ∈ fs → f.rule = .S011
  | .nil, fs, h, hf => by
    simp [check_local_variable_name] at h
    subst h; simp at hf
  | .cons s rest, fs, h, hf => by
    cases s with
    | assign targets lineno =>
      rw [check_local_variable_name] at h
      cases h1 : checkTargets targets with
      | error e => rw [h1] at h; cases h
      | ok fs1 =>
        rw [h1] at h
        cases h2 : check_local_variable_name rest with
        | error e => rw [h2] at h; cases h
        | ok fs2 =>
          rw [h2] at h
          cases h
          rcases List.mem_append.1 hf with hf | hf
          · exact checkTargets_rule h1 hf
          · exact check_local_variable_name_rule rest fs2 h2 hf
    | annAssign target lineno => rw [check_local_variable_name] at h; cases h
    | functionDef name args body lineno =>
      exact check_local_variable_name_rule rest fs (by simpa [check_local_variable_name] using h) hf
    | classDef name body lineno =>
      exact check_local_variable_name_rule rest fs (by simpa [check_local_variable_name] using h) hf
    | simple lineno =>
      exact check_local_variable_name_rule rest fs (by simpa [check_local_variable_name] using h) hf

theorem scanDefaults_rule {f : Finding} :
    ∀ {l : List (Option PyExpr)}, f ∈ scanDefaults l → f.rule = .S012 := by
  intro l
  induction l with
  | nil => simp [scanDefaults]
  | cons x rest ih =>
    cases x with
    | none => simpa [scanDefaults] using ih
    | some e =>
      by_cases hm : isMutableExpr e
      · intro hf
        simp [scanDefaults, hm] at hf
        subst hf; rfl
      · simpa [scanDefaults, hm] using ih

theorem is_default_argument_mutable_rule {f : Finding} {a : PyArguments}
    (h : f ∈ is_default_argument_mutable a) : f.rule = .S012 :=
  scanDefaults_rule h

theorem visit_FunctionDef_rules {q : List Finding} {args : PyArguments} {body : PyStmtList}
    {q2 : List Finding} (h : visit_FunctionDef q args body = .ok q2)
    (hq : ∀ f ∈ q, f.rule.isTreeRule = true) : ∀ f ∈ q2, f.rule.isTreeRule = true := by
  unfold visit_FunctionDef at h
  cases hlv : check_local_variable_name body with
  | error e => rw [hlv] at h; cases h
  | ok fs =>
    rw [hlv] at h
    cases h
    intro f hf
    rw [mem_pySorted] at hf
    rcases List.mem_append.1 hf with hf | hf
    · rcases List.mem_append.1 hf with hf | hf
      · rcases List.mem_append.1 hf with hf | hf
        · exact hq f hf
        · rw [check_argument_name_rule hf]; rfl
      · rw [check_local_variable_name_rule body fs hlv hf]; rfl
    · rw [is_default_argument_mutable_rule hf]; rfl

mutual
theorem visit_rules : ∀ (s : PyStmt) (q : List Finding)
    (r : List Finding × List (PyStr × Nat)), visit q s = .ok r →
    (∀ f ∈ q, f.rule.isTreeRule = true) → ∀ f ∈ r.1, f.rule.isTreeRule = true
  | .functionDef name args body lineno, q, r, h, hq => by
    cases h1 : visit_FunctionDef q args body with
    | error e => simp [visit, h1] at h
    | ok q1 =>
      simp only [visit, h1, Except.ok.injEq] at h
      subst h
      exact visit_FunctionDef_rules h1 hq
  | .classDef name body lineno, q, r, h, hq =>
    generic_visit_rules body q r (by simpa [visit] using h) hq
  | .assign targets lineno, q, r, h, hq => by
    simp only [visit, Except.ok.injEq] at h; subst h; exact hq
  | .annAssign target lineno, q, r, h, hq => by
    simp only [visit, Except.ok.injEq] at h; subst h; exact hq
  | .simple lineno, q, r, h, hq => by
    simp only [visit, Except.ok.injEq] at h; subst h; exact hq

theorem generic_visit_rules : ∀ (l : PyStmtList) (q : List Finding)
    (r : List Finding × List (PyStr × Nat)), generic_visit q l = .ok r →
    (∀ f ∈ q, f.rule.isTreeRule = true) → ∀ f ∈ r.1, f.rule.isTreeRule = true
  | .nil, q, r, h, hq => by
    simp only [generic_visit, Except.ok.injEq] at h; subst h; exact hq
  | .cons s rest, q, r, h, hq => by
    cases h1 : visit q s with
    | error e => simp [generic_visit, h1] at h
    | ok r1 =>
      cases h2 : generic_visit r1.1 rest with
      | error e => simp [generic_visit, h1, h2] at h
      | ok r2 =>
        simp only [generic_visit, h1, h2, Except.ok.injEq] at h
        subst h
        exact generic_visit_rules rest r1.1 r2 h2 (visit_rules s q r1 h1 hq)
end

mutual
theorem visit_visited : ∀ (s : PyStmt) (q : List Finding)
    (r : List Finding × List (PyStr × Nat)), visit q s = .ok r →
    r.2 = unnested_routine_defs_stmt s
  | .functionDef name args body lineno, q, r, h => by
    cases h1 : visit_FunctionDef q args body with
    | error e => simp [visit, h1] at h
    | ok q1 =>
      simp only [visit, h1, Except.ok.injEq] at h
      subst h; rfl
  | .classDef name body lineno, q, r, h =>
    generic_visit_visited body q r (by simpa [visit] using h)
  | .assign targets lineno, q, r, h => by
    simp only [visit, Except.ok.injEq] at h; subst h; rfl
  | .annAssign target lineno, q, r, h => by
    simp only [visit, Except.ok.injEq] at h; subst h; rfl
  | .simple lineno, q, r, h => by
    simp only [visit, Except.ok.injEq] at h; subst h; rfl

theorem generic_visit_visited : ∀ (l : PyStmtList) (q : List Finding)
    (r : List Finding × List (PyStr × Nat)), generic_visit q l = .ok r →
    r.2 = unnested_routine_defs l
  | .nil, q, r, h => by
    simp only [generic_visit, Except.ok.injEq] at h; subst h; rfl
  | .cons s rest, q, r, h => by
    cases h1 : visit q s with
    | error e => simp [generic_visit, h1] at h
    | ok r1 =>
      cases h2 : generic_visit r1.1 rest with
      | error e => simp [generic_visit, h1, h2] at h
      | ok r2 =>
        simp only [generic_visit, h1, h2, Except.ok.injEq] at h
        subst h
        rw [unnested_routine_defs]
        rw [visit_visited s q r1 h1, generic_visit_visited rest r1.1 r2 h2]
end

theorem check_line_length_mem {f : Finding} {n : Nat} {s : PyStr}
    (h : f ∈ check_line_length n s) : f = ⟨n, .S001⟩ := by
  unfold check_line_length at h
  split at h
  · simpa using h
  · simp at h

theorem check_indentation_mem {f : Finding} {n : Nat} {s : PyStr}
    (h : f ∈ check_indentation n s) : f = ⟨n, .S002⟩ := by
  unfold check_indentation at h
  split at h
  · simpa using h
  · simp at h

theorem check_semicolon_mem {f : Finding} {n : Nat} {s : PyStr}
    (h : f ∈ check_semicolon n s) : f = ⟨n, .S003⟩ := by
  unfold check_semicolon at h
  split at h
  · split at h
    · split at h
      · simpa using h
      · simp at h
    · simp at h
  · simp at h

theorem check_comment_spaces_mem {f : Finding} {n : Nat} {s : PyStr} {hi : Nat}
    (h : f ∈ check_comment_spaces n s hi) : f = ⟨n, .S004⟩ := by
  unfold check_comment_spaces at h
  split at h
  · split at h
    · simp at h
    · split at h
      · simp at h
      · simpa using h
  · simp at h

theorem check_is_todo_mem {f : Finding} {n : Nat} {s : PyStr} {hi : Nat}
    (h : f ∈ check_is_todo n s hi) : f = ⟨n, .S005⟩ := by
  unfold check_is_todo at h
  split at h
  · split at h
    · simpa using h
    · simp at h
  · simp at h

theorem check_blank_lines_mem {f : Finding} {n c : Nat} {w : List PyStr} {s : PyStr}
    (h : f ∈ (check_blank_lines n c w s).2.2) : f = ⟨n, .S006⟩ := by
  unfold check_blank_lines at h
  split at h
  · simp at h
  · split at h
    · simpa using h
    · simp at h

theorem check_definition_spaces_mem {f : Finding} {n : Nat} {m : DefHeader}
    (h : f ∈ check_definition_spaces n m) : f = ⟨n, .S007⟩ := by
  unfold check_definition_spaces at h
  split at h
  · simpa using h
  · simp at h

theorem check_class_name_mem {f : Finding} {n : Nat} {m : DefHeader}
    (h : f ∈ check_class_name n m) : f = ⟨n, .S008⟩ := by
  simp only [check_class_name] at h
  split_ifs at h <;> simp_all [List.mem_append]

theorem check_function_name_mem {f : Finding} {n : Nat} {m : DefHeader}
    (h : f ∈ check_function_name n m) : f = ⟨n, .S009⟩ := by
  unfold check_function_name at h
  split at h
  · simp at h
  · split at h
    · simpa using h
    · simp at h

theorem headerChecks_mem {f : Finding} {g : GetGroups} {n : Nat} {s : PyStr}
    (h : f ∈ headerChecks g n s) : f.line = n ∧ f.rule.isTreeRule = false := by
  unfold headerChecks at h
  split at h
  · simp at h
  · rcases List.mem_append.1 h with h | h
    · rcases List.mem_append.1 h with h | h
      · rw [check_definition_spaces_mem h]; exact ⟨rfl, rfl⟩
      · rw [check_class_name_mem h]; exact ⟨rfl, rfl⟩
    · rw [check_function_name_mem h]; exact ⟨rfl, rfl⟩

theorem lineFindings_mem {f : Finding} {g : GetGroups} {n c : Nat} {w : List PyStr}
    {s : PyStr} (h : f ∈ lineFindings g n c w s) :
    f.line = n ∧ f.rule.isTreeRule = false := by
  unfold lineFindings at h
  rcases List.mem_append.1 h with h | h
  · rcases List.mem_append.1 h with h | h
    · rcases List.mem_append.1 h with h | h
      · rcases List.mem_append.1 h with h | h
        · rcases List.mem_append.1 h with h | h
          · rcases List.mem_append.1 h with h | h
            · rw [check_line_length_mem h]; exact ⟨rfl, rfl⟩
            · rw [check_indentation_mem h]; exact ⟨rfl, rfl⟩
          · rw [check_semicolon_mem h]; exact ⟨rfl, rfl⟩
        · rw [check_comment_spaces_mem h]; exact ⟨rfl, rfl⟩
      · rw [check_is_todo_mem h]; exact ⟨rfl, rfl⟩
    · rw [check_blank_lines_mem h]; exact ⟨rfl, rfl⟩
  · exact headerChecks_mem h

theorem check_warning_queue_facts (n : Nat) :
    ∀ q : List Finding,
      (∀ f ∈ (check_warning_queue n q).1, f.line = n ∧ f ∈ q) ∧
      (∀ f ∈ (check_warning_queue n q).2, f ∈ q) := by
  intro q
  induction q with
  | nil => simp [check_warning_queue]
  | cons x rest ih =>
    by_cases h : x.line = n
    · constructor
      · intro f hf
        simp only [check_warning_queue, if_pos h] at hf
        rcases List.mem_cons.1 hf with hf | hf
        · subst hf; exact ⟨h, List.mem_cons_self _ _⟩
        · obtain ⟨h1, h2⟩ := ih.1 f hf
          exact ⟨h1, List.mem_cons_of_mem _ h2⟩
      · intro f hf
        simp only [check_warning_queue, if_pos h] at hf
        exact List.mem_cons_of_mem _ (ih.2 f hf)
    · constructor
      · intro f hf
        simp [check_warning_queue, if_neg h] at hf
      · intro f hf
        simpa only [check_warning_queue, if_neg h] using hf

theorem processLine_snd (g : GetGroups) (st : AnalyzerState) (s : PyStr) :
    (processLine g st s).2 =
      lineFindings g st.line_number st.blank_lines_counter st.last_3_lines_queue s ++
        (check_warning_queue st.line_number st.warning_queue).1 := rfl

theorem processLine_line_number (g : GetGroups) (st : AnalyzerState) (s : PyStr) :
    (processLine g st s).1.line_number = st.line_number + 1 := rfl

theorem processLine_warning_queue (g : GetGroups) (st : AnalyzerState) (s : PyStr) :
    (processLine g st s).1.warning_queue =
      (check_warning_queue st.line_number st.warning_queue).2 := rfl

theorem processLine_mem_line {g : GetGroups} {st : AnalyzerState} {s : PyStr} {f : Finding}
    (h : f ∈ (processLine g st s).2) : f.line = st.line_number := by
  rw [processLine_snd] at h
  rcases List.mem_append.1 h with h | h
  · exact (lineFindings_mem h).1
  · exact ((check_warning_queue_facts st.line_number st.warning_queue).1 f h).1

theorem processLine_pairwise (g : GetGroups) (st : AnalyzerState) (s : PyStr)
    (hq : ∀ f ∈ st.warning_queue, f.rule.isTreeRule = true) :
    ((processLine g st s).2).Pairwise diagOrder := by
  rw [processLine_snd]
  rw [List.pairwise_append]
  refine ⟨?_, ?_, ?_⟩
  · apply List.pairwise_of_forall_mem_list
    intro a ha b hb
    obtain ⟨ha1, ha2⟩ := lineFindings_mem ha
    obtain ⟨hb1, _⟩ := lineFindings_mem hb
    right
    exact ⟨ha1.trans hb1.symm, fun hcontra => absurd hcontra (by simp [ha2])⟩
  · apply List.pairwise_of_forall_mem_list
    intro a ha b hb
    obtain ⟨ha1, ha2⟩ := (check_warning_queue_facts st.line_number st.warning_queue).1 a ha
    obtain ⟨hb1, hb2⟩ := (check_warning_queue_facts st.line_number st.warning_queue).1 b hb
    right
    exact ⟨ha1.trans hb1.symm, fun _ => hq b hb2⟩
  · intro a ha b hb
    obtain ⟨ha1, ha2⟩ := lineFindings_mem ha
    obtain ⟨hb1, _⟩ := (check_warning_queue_facts st.line_number st.warning_queue).1 b hb
    right
    exact ⟨ha1.trans hb1.symm, fun hcontra => absurd hcontra (by simp [ha2])⟩

theorem runLines_facts (g : GetGroups) :
    ∀ (lines : List PyStr) (st : AnalyzerState),
      (∀ f ∈ st.warning_queue, f.rule.isTreeRule = true) →
      ((runLines g st lines).2.Pairwise diagOrder ∧
        ∀ f ∈ (runLines g st lines).2, st.line_number ≤ f.line) := by
  intro lines
  induction lines with
  | nil => intro st _; simp [runLines]
  | cons s rest ih =>
    intro st hq
    have hq1 : ∀ f ∈ (processLine g st s).1.warning_queue, f.rule.isTreeRule = true := by
      intro f hf
      rw [processLine_warning_queue] at hf
      exact hq f ((check_warning_queue_facts st.line_number st.warning_queue).2 f hf)
    obtain ⟨ihp, ihb⟩ := ih (processLine g st s).1 hq1
    have hmem : ∀ f ∈ (runLines g st (s :: rest)).2,
        f ∈ (processLine g st s).2 ∨ f ∈ (runLines g (processLine g st s).1 rest).2 := by
      intro f hf
      simpa [runLines] using List.mem_append.1 (by simpa [runLines] using hf)
    constructor
    · show ((runLines g st (s :: rest)).2).Pairwise diagOrder
      have : (runLines g st (s :: rest)).2 =
          (processLine g st s).2 ++ (runLines g (processLine g st s).1 rest).2 := rfl
      rw [this, List.pairwise_append]
      refine ⟨processLine_pairwise g st s hq, ihp, ?_⟩
      intro a ha b hb
      have ha1 : a.line = st.line_number := processLine_mem_line ha
      have hb1 : st.line_number + 1 ≤ b.line := by
        have := ihb b hb
        rwa [processLine_line_number] at this
      left; omega
    · intro f hf
      rcases hmem f hf with hf | hf
      · rw [processLine_mem_line hf]
      · have := ihb f hf
        rw [processLine_line_number] at this
        omega

theorem scanDefaults_eq (l : List (Option PyExpr)) :
    scanDefaults l =
      match (l.filterMap id).find? isMutableExpr with
      | some e => [⟨e.lineno, .S012⟩]
      | none => [] := by
  induction l with
  | nil => rfl
  | cons x rest ih =>
    cases x with
    | none => simpa [scanDefaults, List.filterMap_cons] using ih
    | some e =>
      by_cases hm : isMutableExpr e
      · simp [scanDefaults, hm, List.filterMap_cons, List.find?_cons_of_pos]
      · simpa [scanDefaults, hm, List.filterMap_cons, List.find?_cons_of_neg] using ih

theorem ite_isEmpty_self {α : Type} (l : List α) : (if l.isEmpty then [] else l) = l := by
  cases l <;> simp

theorem blankFold_blanks (k : Nat) :
    ∀ (n c : Nat) (w : List PyStr),
      (blankFold n c w (List.replicate k ['\n'])).1 = c + k := by
  induction k with
  | zero => intro n c w; simp [blankFold]
  | succ k ih =>
    intro n c w
    rw [List.replicate_succ, blankFold]
    have : (check_blank_lines n c w ['\n']).1 = c + 1 := by
      simp [check_blank_lines]
    rw [this]
    rw [ih]
    omega

theorem line_content_length_le (s : PyStr) : line_content_length s ≤ s.length := by
  unfold line_content_length
  split_ifs <;> omega

/-! ## Claim theorems -/

/-- C1: the claim says that in directory mode every per-file field —
line number, blank-line counter, pending queue — is reset before each
file's processing.  The code resets only `line_number`: processing the
file `x = 1\n\n\n` and then the file `\nx = 1\n` starts the second file
with a blank-line counter of 2 (third conjunct), so its second line is
greeted with a spurious S006 (first conjunct) that a fresh run of the
same file does not produce (second conjunct). -/
theorem c1_blank_state_leak :
    findingsOf (check_path c1_parse g0 2 [c1_text1, c1_text2] initState) = [⟨2, .S006⟩] ∧
    findingsOf (check_path c1_parse g0 2 [c1_text2] initState) = [] ∧
    (run_checks c1_parse g0 2 { initState with line_number := 1 } c1_text1).toOption.map
        (fun r => r.1.blank_lines_counter) = some 2 :=
  ⟨rfl, rfl, rfl⟩

/-- C2 counterexample: for the invalid file `x = ;1\n`, whose parse
requires a semicolon repair (the repair deletes the semicolon, leaving
`x = 1\n`), the repaired working text differs from the original, the
line pass still reports the stray semicolon (it reads the original
file), and the engine's output differs from the repaired-read variant the
claim describes — over the repaired text the semicolon rule has nothing
to fire on — so the line pass does *not* evaluate its rules over the
repaired text. -/
theorem c2_line_pass_reads_original :
    (built_ast c2_parse 2 c2_text).toOption.map (fun p => p.2) = some ("x = 1\n".toList) ∧
    ("x = 1\n".toList : PyStr) ≠ c2_text ∧
    findingsOf (run_checks c2_parse g0 2 initState c2_text) = [⟨1, .S003⟩] ∧
    findingsOf (run_checks_repaired_read c2_parse g0 2 initState c2_text) = [] ∧
    run_checks c2_parse g0 2 initState c2_text ≠
      run_checks_repaired_read c2_parse g0 2 initState c2_text := by
  refine ⟨rfl, by decide, rfl, rfl, ?_⟩
  intro h
  exact absurd (congrArg findingsOf h) (by decide)

/-- C2 amended: whenever the resilient parse and the tree pass succeed,
the line-by-line lexical pass evaluates its rules over the *original
unmodified* file content (the path is re-opened for the line pass), even
when the parse required repairs. -/
theorem c2_amended_line_pass_original (parse : PyStr → ParseResult) (g : GetGroups)
    (fuel : Nat) (st : AnalyzerState) (text : PyStr) (tr : PyStmtList × PyStr)
    (qv : List Finding × List (PyStr × Nat))
    (h1 : built_ast parse fuel text = .ok tr)
    (h2 : generic_visit st.warning_queue tr.1 = .ok qv) :
    run_checks parse g fuel st text =
      .ok (runLines g { st with warning_queue := qv.1 } (pySplitLinesKeepends text)) := by
  simp only [run_checks, h1, h2]

/-- C2 amended, witness: the amended statement applied to the concrete
repaired file `x = ;1\n`. -/
theorem c2_amended_witness :
    run_checks c2_parse g0 2 initState c2_text =
      .ok (runLines g0 { initState with warning_queue := [] }
        (pySplitLinesKeepends c2_text)) :=
  c2_amended_line_pass_original c2_parse g0 2 initState c2_text
    (c2_tree, "x = 1\n".toList) ([], []) rfl rfl

/-- C3 counterexample: in a module whose routine `outer` nests a routine
`Inner` with the badly named parameter `X`, the traversal visits only
`outer`; the document-order list of *all* routine definitions also
contains `Inner`, so the claim's visit set is wrong, and `Inner`'s bad
parameter name produces no finding even though it fails the snake_case
test. -/
theorem c3_nested_defs_not_visited :
    generic_visit [] c3_module = .ok ([], [("outer".toList, 1)]) ∧
    all_routine_defs c3_module = [("outer".toList, 1), ("Inner".toList, 2)] ∧
    (generic_visit [] c3_module).toOption.map (fun r => r.2) ≠
      some (all_routine_defs c3_module) ∧
    is_snake_case "X".toList = false :=
  ⟨rfl, rfl, by decide, rfl⟩

/-- C3 amended: the tree pass visits exactly the routine-definition nodes
*not* nested inside another routine definition, in document order (the
traversal recurses through class bodies and all other statements, but
`visit_FunctionDef` never descends into a routine's body); the
argument-name, local-variable and mutable-default checks run once per
visited node by definition of `visit_FunctionDef`. -/
theorem c3_amended_unnested_visited (q : List Finding) (l : PyStmtList)
    (r : List Finding × List (PyStr × Nat)) (h : generic_visit q l = .ok r) :
    r.2 = unnested_routine_defs l :=
  generic_visit_visited l q r h

/-- C3 amended, witness: the amended statement applied to the concrete
module with the nested routine. -/
theorem c3_amended_witness :
    (([], [("outer".toList, 1)]) : List Finding × List (PyStr × Nat)).2 =
      unnested_routine_defs c3_module :=
  c3_amended_unnested_visited [] c3_module ([], [("outer".toList, 1)]) rfl

/-- C4: the claim says the local-variable check inspects the targets of
annotated assignments; but `ast.AnnAssign` has no `targets` attribute, so
on the routine body `x: int = 1` the check raises `AttributeError`, which
propagates through the tree pass and out of `run_checks`, aborting the
file's analysis before any diagnostic is printed. -/
theorem c4_annassign_attribute_error :
    check_local_variable_name c4_body = .error .attributeError ∧
    generic_visit [] c4_module = .error .attributeError ∧
    run_checks c4_parse g0 1 initState c4_text = .error .attributeError :=
  ⟨rfl, rfl, rfl⟩

/-- C5 counterexample: a 79-character line followed by its terminator has
length 79 excluding the terminator, yet the too-long-line rule fires,
because the source measures `len(self.string)` on the raw line including
the newline. -/
theorem c5_79_char_line_fires :
    line_content_length c5_line = 79 ∧ check_line_length 1 c5_line = [⟨1, .S001⟩] :=
  ⟨by decide, by decide⟩

/-- C5 amended: the rule fires iff the raw line (terminator included) is
longer than 79 characters: a line whose raw length is at most 79 yields
no finding, and a line of exactly 80 characters excluding the terminator
yields exactly one finding. -/
theorem c5_amended_line_length (n : Nat) (s : PyStr) :
    (s.length ≤ 79 → check_line_length n s = []) ∧
    (line_content_length s = 80 → (check_line_length n s).length = 1) := by
  constructor
  · intro h
    unfold check_line_length
    rw [if_neg (by omega : ¬s.length > 79)]
  · intro h
    have hle := line_content_length_le s
    unfold check_line_length
    rw [if_pos (by omega : s.length > 79)]
    rfl

/-- C5 amended, witness: a 10-character line yields nothing; an
80-character line with terminator yields exactly one finding. -/
theorem c5_amended_witness :
    check_line_length 1 (List.replicate 10 'a') = [] ∧
    (check_line_length 2 (List.replicate 80 'a' ++ ['\n'])).length = 1 :=
  ⟨(c5_amended_line_length 1 (List.replicate 10 'a')).1 (by decide),
   (c5_amended_line_length 2 (List.replicate 80 'a' ++ ['\n'])).2 (by decide)⟩

/-- C6: every successful per-file run emits its diagnostics ordered by
the findings' line numbers (non-decreasing), and among findings for the
same line a tree-pass finding is never followed by a line-pass finding:
line-pass findings are printed the instant their line is visited, and the
buffered tree-pass findings for that line are drained afterwards. -/
theorem c6_output_ordered (parse : PyStr → ParseResult) (g : GetGroups) (fuel : Nat)
    (st st2 : AnalyzerState) (text : PyStr) (out : List Finding)
    (hq : ∀ f ∈ st.warning_queue, f.rule.isTreeRule = true)
    (h : run_checks parse g fuel st text = .ok (st2, out)) :
    out.Pairwise diagOrder := by
  cases h1 : built_ast parse fuel text with
  | error e => simp [run_checks, h1] at h
  | ok tr =>
    cases h2 : generic_visit st.warning_queue tr.1 with
    | error e => simp [run_checks, h1, h2] at h
    | ok qv =>
      simp only [run_checks, h1, h2, Except.ok.injEq] at h
      have hout : out = (runLines g { st with warning_queue := qv.1 }
          (pySplitLinesKeepends text)).2 := by
        rw [h]
      have hq2 : ∀ f ∈ qv.1, f.rule.isTreeRule = true :=
        generic_visit_rules tr.1 st.warning_queue qv h2 hq
      have hfacts := runLines_facts g (pySplitLinesKeepends text)
        { st with warning_queue := qv.1 } (by simpa using hq2)
      rw [hout]
      exact hfacts.1

/-- C6, witness: the ordering theorem applied to the concrete one-line
file `x = ;1\n`, whose output is the single stray-semicolon finding. -/
theorem c6_witness : List.Pairwise diagOrder [(⟨1, .S003⟩ : Finding)] :=
  c6_output_ordered c2_parse g0 2 initState ⟨2, 0, [c2_text], []⟩ c2_text
    [⟨1, .S003⟩] (by simp [initState]) rfl

/-- C7: the mutable-default check scans the keyword-defaults deque first
and the positional defaults second, records exactly one S012 finding at
the first default that is a literal list/dict/set, and records none when
no such literal occurs; in particular it never emits more than one
finding per routine. -/
theorem c7_mutable_default_scan :
    (∀ a : PyArguments,
        is_default_argument_mutable a =
          match ((a.kw_defaults ++ a.defaults.map some).filterMap id).find? isMutableExpr with
          | some e => [⟨e.lineno, .S012⟩]
          | none => []) ∧
    (∀ a : PyArguments, (is_default_argument_mutable a).length ≤ 1) := by
  have key : ∀ a : PyArguments,
      is_default_argument_mutable a =
        match ((a.kw_defaults ++ a.defaults.map some).filterMap id).find? isMutableExpr with
        | some e => [⟨e.lineno, .S012⟩]
        | none => [] := by
    intro a
    unfold is_default_argument_mutable
    rw [ite_isEmpty_self]
    have hdef : (if a.defaults.isEmpty then [] else a.defaults.map some) =
        a.defaults.map some := by
      cases a.defaults <;> simp
    rw [hdef, scanDefaults_eq]
  refine ⟨key, fun a => ?_⟩
  rw [key a]
  cases ((a.kw_defaults ++ a.defaults.map some).filterMap id).find? isMutableExpr <;> simp

/-- C8: the stray-semicolon rule fires on `x = 1;`, stays silent on
`x = 1  # comment; not code` (semicolon after the comment marker) and on
`s = "a;b"` (semicolon inside a quoted span); the heuristic returns the
index of the *first* qualifying semicolon (index 5 on a line with two
statement-separating semicolons), and on any line the rule emits at most
one diagnostic. -/
theorem c8_semicolon_examples :
    check_semicolon 1 ("x = 1;\n".toList) = [⟨1, .S003⟩] ∧
    check_semicolon 1 ("x = 1  # comment; not code\n".toList) = [] ∧
    check_semicolon 1 ("s = \"a;b\"\n".toList) = [] ∧
    find_extra_semicolon ("x = 1; y = 2;\n".toList) = some 5 ∧
    ∀ (n : Nat) (s : PyStr), (check_semicolon n s).length ≤ 1 := by
  refine ⟨rfl, rfl, rfl, rfl, ?_⟩
  intro n s
  unfold check_semicolon
  split
  · split
    · split <;> simp
    · simp
  · simp

/-- C9: when the parser reports a generic syntax failure on a line in
which `find_extra_semicolon` finds no qualifying semicolon, the repair
evaluates `None + 1` and raises `TypeError`; the error propagates through
`built_ast` into `run_checks`, aborting the file's analysis before any
diagnostic is produced (the result is an error carrying no findings). -/
theorem c9_repair_type_error (parse : PyStr → ParseResult) (g : GetGroups) (fuel : Nat)
    (st : AnalyzerState) (text : PyStr) (lineNo : Nat) (line : PyStr)
    (hp : parse text = .syntaxError lineNo)
    (hget : pyGet (pySplitLinesKeepends text) (lineNo - 1) = .ok line)
    (hfind : find_extra_semicolon line = none) :
    run_checks parse g (fuel + 1) st text = .error .typeError := by
  have hfix : fix_syntax_error lineNo text = .error .typeError := by
    simp only [fix_syntax_error, hget, hfind]
  have hba : built_ast parse (fuel + 1) text = .error .typeError := by
    simp only [built_ast, hp, hfix]
  simp [run_checks, hba]

/-- C9, witness: a parser failing with a syntax error on line 1 of the
file `foo bar\n`, whose line contains no semicolon. -/
theorem c9_witness :
    run_checks c9_parse g0 3 initState c9_text = .error .typeError :=
  c9_repair_type_error c9_parse g0 2 initState c9_text 1 c9_text rfl rfl rfl

/-- C10: after a run of `k ≥ 4` consecutive blank lines the counter holds
`k`, so the non-blank line that breaks the run yields no S006 finding;
in general, on a non-blank line the check fires iff the counter is
exactly 3 at that moment. -/
theorem c10_blank_run_overflow (k m n : Nat) (w : List PyStr) (s : PyStr)
    (hk : 4 ≤ k) (hs : ¬(s.take 1 = ['\n'] ∨ s.take 1 = ['\r'])) :
    (check_blank_lines m (blankFold n 0 w (List.replicate k ['\n'])).1
        (blankFold n 0 w (List.replicate k ['\n'])).2 s).2.2 = [] ∧
    ∀ (c : Nat) (w2 : List PyStr),
      ((check_blank_lines m c w2 s).2.2 ≠ [] ↔ c = 3) := by
  constructor
  · have hc := blankFold_blanks k n 0 w
    unfold check_blank_lines
    rw [if_neg hs]
    simp only
    rw [hc]
    rw [if_neg (by omega : ¬0 + k = 3)]
  · intro c w2
    unfold check_blank_lines
    rw [if_neg hs]
    by_cases h3 : c = 3 <;> simp [h3]

/-- C10, witness: four blank lines followed by `x = 1\n` yield no S006,
and a counter of 7 on a non-blank line does not fire either. -/
theorem c10_witness :
    (check_blank_lines 5 (blankFold 1 0 [] (List.replicate 4 ['\n'])).1
        (blankFold 1 0 [] (List.replicate 4 ['\n'])).2 ("x = 1\n".toList)).2.2 = [] ∧
    (((check_blank_lines 5 7 [] ("x = 1\n".toList)).2.2 ≠ []) ↔ 7 = 3) :=
  ⟨(c10_blank_run_overflow 4 5 1 [] ("x = 1\n".toList) (by decide) (by decide)).1,
   (c10_blank_run_overflow 4 5 1 [] ("x = 1\n".toList) (by decide) (by decide)).2 7 []⟩
